import Mathlib

/-!
Verification of the face-recognition service (`verify/face_recognition_service.py`).

The service's observable behaviour is a function of what the external
libraries (PIL, `face_recognition`, numpy) return for a given image, so an
image is modelled by the outcome of the two external stages the service
invokes on it: loading-and-locating faces, and encoding the located faces.
Exceptions raised by a stage are modelled as `Except.error` carrying the
exception's message; embeddings are real vectors, and the numpy Euclidean
norm used by `face_recognition.face_distance` is modelled with `Real.sqrt`
(it raises — modelled as `none` — when the two vectors' shapes differ).
-/

namespace FaceRec

/-- A face bounding box as returned by `face_recognition.face_locations`:
`(top, right, bottom, left)` pixel coordinates. -/
abbrev FaceLocation := ℤ × ℤ × ℤ × ℤ

/-- An image, modelled by the responses of the external pipeline stages the
service runs on it:
* `locate`  : result of loading the image and calling `face_locations`
  (an exception anywhere up to and including locating is `Except.error msg`);
* `encode`  : result of calling `face_encodings` on the located faces
  (one embedding per located face; an exception is `Except.error msg`). -/
structure Image where
  locate : Except String (List FaceLocation)
  encode : Except String (List (List ℝ))

/-- The class attribute `RECOGNITION_THRESHOLD = 0.6` of
`FaceRecognitionService` ("lower values are more strict"). -/
noncomputable def RECOGNITION_THRESHOLD : ℝ := 0.6

/-- Euclidean distance between two equal-length real vectors:
`np.linalg.norm(a - b)` as computed by `face_recognition.face_distance`. -/
noncomputable def face_distance_val (a b : List ℝ) : ℝ :=
  Real.sqrt ((List.zipWith (fun x y => (x - y) ^ 2) a b).sum)

/-- The call `face_recognition.face_distance([known], unknown)[0]`, i.e.
`np.linalg.norm(np.array([a]) - np.array(b), axis=1)[0]` on shapes
`(1, a.length)` and `(b.length,)`. Equal lengths subtract elementwise;
when the lengths differ numpy broadcasts a length-1 operand across the
other (stretching the single element), and raises a broadcast error —
modelled as `none` — only when the lengths differ and neither is 1. -/
noncomputable def face_distance (a b : List ℝ) : Option ℝ :=
  if a.length = b.length then some (face_distance_val a b)
  else if a.length = 1 then some (face_distance_val (List.replicate b.length a.headI) b)
  else if b.length = 1 then some (face_distance_val a (List.replicate a.length b.headI))
  else none

/-- The body of `FaceRecognitionService.compare_faces` with the threshold
made explicit (the source reads it from the class attribute
`RECOGNITION_THRESHOLD`, which is configurable per instance):
`confidence_score = 1 - face_distance`, `is_match = face_distance <=
threshold`; the surrounding `try/except` turns any exception raised while
comparing into the return value `(False, 0.0)`. -/
noncomputable def compare_faces_with (threshold : ℝ) (known_encoding unknown_encoding : List ℝ) :
    Bool × ℝ :=
  match face_distance known_encoding unknown_encoding with
  | some d => (decide (d ≤ threshold), 1 - d)
  | none => (false, 0)

/-- `FaceRecognitionService.compare_faces`: the matcher at the service's
default threshold. -/
noncomputable def compare_faces (known_encoding unknown_encoding : List ℝ) : Bool × ℝ :=
  compare_faces_with RECOGNITION_THRESHOLD known_encoding unknown_encoding

/-- `FaceRecognitionService.extract_face_encoding`: returns
`(face_encoding or none, error_message)`. Mirrors the source's branch
order: library availability, load/locate exceptions, the empty-locations
check, encoding exceptions, the empty-encodings check, and finally the
first encoding with an empty error message. -/
def extract_face_encoding (available : Bool) (image_file : Image) : Option (List ℝ) × String :=
  if !available then (none, "Face recognition libraries not installed")
  else
    match image_file.locate with
    | .error e => (none, "Error processing image: " ++ e)
    | .ok face_locations =>
      if face_locations.isEmpty then (none, "No face detected in the image")
      else
        match image_file.encode with
        | .error e => (none, "Error processing image: " ++ e)
        | .ok [] => (none, "Could not generate face encoding")
        | .ok (e0 :: _) => (some e0, "")

/-- The messages `extract_face_encoding` sends to the logger on the same
input: the multiple-faces warning (`logger.warning`) and the
exception-path errors (`logger.error`). -/
def extract_face_encoding_log (available : Bool) (image_file : Image) : List String :=
  if !available then []
  else
    match image_file.locate with
    | .error e => ["Error processing image: " ++ e]
    | .ok face_locations =>
      if face_locations.isEmpty then []
      else
        (if 1 < face_locations.length then
          ["Multiple faces detected (" ++ toString face_locations.length ++ "), using the first one"]
        else []) ++
        (match image_file.encode with
         | .error e => ["Error processing image: " ++ e]
         | .ok _ => [])

/-- `FaceRecognitionService.verify_face`: extracts the staff (reference)
encoding first, then the uploaded (probe) encoding, then compares; each
extraction failure short-circuits with `(False, 0.0, side-prefixed
message)`, and success returns `(is_match, confidence_score, "")`. -/
noncomputable def verify_face (available : Bool) (staff_photo uploaded_photo : Image) :
    Bool × ℝ × String :=
  match extract_face_encoding available staff_photo with
  | (none, staff_error) => (false, 0, "Staff photo error: " ++ staff_error)
  | (some staff_encoding, _) =>
    match extract_face_encoding available uploaded_photo with
    | (none, uploaded_error) => (false, 0, "Uploaded photo error: " ++ uploaded_error)
    | (some uploaded_encoding, _) =>
      ((compare_faces staff_encoding uploaded_encoding).1,
       (compare_faces staff_encoding uploaded_encoding).2, "")

/-- `FaceRecognitionService.batch_verify_faces`: extracts the probe
encoding once; if that fails, maps every supplied `(staff_id, _)` to
`(staff_id, False, 0.0)`; otherwise compares each staff encoding against
the probe encoding in input order (the per-iteration `try/except` turns a
comparison exception into `(staff_id, False, 0.0)`, which is also what
`compare_faces`'s own handler already returns). -/
noncomputable def batch_verify_faces (available : Bool)
    (staff_encodings : List (String × List ℝ)) (uploaded_photo : Image) :
    List (String × Bool × ℝ) :=
  match (extract_face_encoding available uploaded_photo).1 with
  | none => staff_encodings.map (fun p => (p.1, false, 0))
  | some uploaded_encoding =>
    staff_encodings.map (fun p =>
      ((p.1 : String), (compare_faces p.2 uploaded_encoding).1, (compare_faces p.2 uploaded_encoding).2))

/-- How many times `batch_verify_faces` invokes `compare_faces`, read off
the source's control flow: zero on the no-probe-face short-circuit, one
per supplied staff encoding otherwise. -/
def batch_compare_count (available : Bool)
    (staff_encodings : List (String × List ℝ)) (uploaded_photo : Image) : Nat :=
  match (extract_face_encoding available uploaded_photo).1 with
  | none => 0
  | some _ => staff_encodings.length

/-- Sample image: one face located, encoding `[0]`. -/
def imgOneFaceZero : Image := ⟨Except.ok [(0, 0, 0, 0)], Except.ok [[0]]⟩

/-- Sample image: one face located, two-dimensional encoding `[0, 0]`. -/
def imgOneFaceDim2 : Image := ⟨Except.ok [(0, 0, 0, 0)], Except.ok [[0, 0]]⟩

/-- Sample image: one face located, three-dimensional encoding `[0, 0, 0]`. -/
def imgOneFaceDim3 : Image := ⟨Except.ok [(0, 0, 0, 0)], Except.ok [[0, 0, 0]]⟩

/-- Sample image: no face located. -/
def imgNoFace : Image := ⟨Except.ok [], Except.ok []⟩

/-- Sample image: loading it raises an exception with message `boom`. -/
def imgLoadFault : Image := ⟨Except.error "boom", Except.ok []⟩

/-- Sample image: two faces located, encodings `[0]` and `[1]`. -/
def imgTwoFaces : Image := ⟨Except.ok [(0, 0, 0, 0), (1, 1, 1, 1)], Except.ok [[0], [1]]⟩

lemma zipWith_sub_sq_self_sum (a : List ℝ) :
    (List.zipWith (fun x y => (x - y) ^ 2) a a).sum = 0 := by
  induction a with
  | nil => simp
  | cons x t ih => simp [ih]

lemma face_distance_val_self (a : List ℝ) : face_distance_val a a = 0 := by
  simp [face_distance_val, zipWith_sub_sq_self_sum]

lemma face_distance_self (a : List ℝ) : face_distance a a = some 0 := by
  simp [face_distance, face_distance_val_self]

lemma compare_faces_with_self (t : ℝ) (a : List ℝ) (h : 0 ≤ t) :
    (compare_faces_with t a a).1 = true := by
  simp [compare_faces_with, face_distance_self, h]

lemma compare_faces_fault (a b : List ℝ) (h : face_distance a b = none) :
    compare_faces a b = (false, 0) := by
  simp [compare_faces, compare_faces_with, h]

lemma face_distance_none_23 : face_distance [(0 : ℝ), 0] [(0 : ℝ), 0, 0] = none := by
  simp [face_distance]

/-- Claim C1: for every pair of equal-dimension embeddings, `compare_faces`
computes the confidence as `1 - distance` and `is_match` as
`distance ≤ RECOGNITION_THRESHOLD`, and the default threshold equals 0.6. -/
theorem compare_faces_confidence_isMatch (a b : List ℝ) (h : a.length = b.length) :
    (compare_faces a b).2 = 1 - face_distance_val a b ∧
    ((compare_faces a b).1 = true ↔ face_distance_val a b ≤ RECOGNITION_THRESHOLD) ∧
    RECOGNITION_THRESHOLD = 6 / 10 := by
  refine ⟨?_, ?_, by norm_num [RECOGNITION_THRESHOLD]⟩ <;>
    simp [compare_faces, compare_faces_with, face_distance, h]

theorem compare_faces_confidence_isMatch_witness :
    ([(0 : ℝ)].length = [(0 : ℝ)].length) ∧
    ((compare_faces [(0 : ℝ)] [(0 : ℝ)]).2 = 1 - face_distance_val [(0 : ℝ)] [(0 : ℝ)] ∧
     ((compare_faces [(0 : ℝ)] [(0 : ℝ)]).1 = true ↔
       face_distance_val [(0 : ℝ)] [(0 : ℝ)] ≤ RECOGNITION_THRESHOLD) ∧
     RECOGNITION_THRESHOLD = 6 / 10) :=
  ⟨rfl, compare_faces_confidence_isMatch [(0 : ℝ)] [(0 : ℝ)] rfl⟩

/-- Claim C7: comparing an embedding with itself yields distance exactly 0,
and `is_match` is true at every threshold that is at least 0. -/
theorem compare_faces_self (a : List ℝ) (t : ℝ) (h : 0 ≤ t) :
    face_distance a a = some 0 ∧ (compare_faces_with t a a).1 = true :=
  ⟨face_distance_self a, compare_faces_with_self t a h⟩

theorem compare_faces_self_witness :
    (0 : ℝ) ≤ 0 ∧
    (face_distance [(0 : ℝ)] [(0 : ℝ)] = some 0 ∧
     (compare_faces_with 0 [(0 : ℝ)] [(0 : ℝ)]).1 = true) :=
  ⟨le_refl 0, compare_faces_self [(0 : ℝ)] 0 (le_refl 0)⟩

/-- Claim C8: for a fixed embedding pair, `is_match` is monotone in the
threshold — a pair that matches at threshold `t` also matches at every
threshold `t' ≥ t`. -/
theorem compare_faces_monotone (a b : List ℝ) (t t' : ℝ) (htt : t ≤ t')
    (h : (compare_faces_with t a b).1 = true) : (compare_faces_with t' a b).1 = true := by
  unfold compare_faces_with at h ⊢
  cases hd : face_distance a b with
  | none => rw [hd] at h; simp at h
  | some d =>
    rw [hd] at h
    simp only [decide_eq_true_eq] at h ⊢
    exact le_trans h htt

theorem compare_faces_monotone_witness :
    ((0 : ℝ) ≤ 1 ∧ (compare_faces_with 0 [(0 : ℝ)] [(0 : ℝ)]).1 = true) ∧
    (compare_faces_with 1 [(0 : ℝ)] [(0 : ℝ)]).1 = true :=
  ⟨⟨by norm_num, compare_faces_with_self 0 [(0 : ℝ)] (le_refl 0)⟩,
   compare_faces_monotone [(0 : ℝ)] [(0 : ℝ)] 0 1 (by norm_num)
     (compare_faces_with_self 0 [(0 : ℝ)] (le_refl 0))⟩

/-- Claim C2: when zero faces are located in the reference (staff) image,
`verify_face` returns the reference-side no-face outcome regardless of the
probe image — in particular also when the probe contains no face, because
the reference is extracted first. -/
theorem verify_face_no_face_reference (staff_photo uploaded_photo : Image)
    (h : staff_photo.locate = Except.ok []) :
    verify_face true staff_photo uploaded_photo =
      (false, 0, "Staff photo error: No face detected in the image") := by
  have hex : extract_face_encoding true staff_photo = (none, "No face detected in the image") := by
    simp [extract_face_encoding, h]
  rw [show ("Staff photo error: No face detected in the image" : String) =
    "Staff photo error: " ++ "No face detected in the image" from rfl]
  simp only [verify_face, hex]

theorem verify_face_no_face_reference_witness :
    (imgNoFace.locate = Except.ok []) ∧
    verify_face true imgNoFace imgNoFace =
      (false, 0, "Staff photo error: No face detected in the image") :=
  ⟨rfl, verify_face_no_face_reference imgNoFace imgNoFace rfl⟩

/-- Claim C3: when the probe yields no face, `batch_verify_faces` returns
one `(staff_id, false, 0.0)` entry per supplied pair, with the same ids in
the same order, and performs zero embedding comparisons. -/
theorem batch_verify_faces_no_probe_face (available : Bool)
    (staff_encodings : List (String × List ℝ)) (uploaded_photo : Image)
    (h : (extract_face_encoding available uploaded_photo).1 = none) :
    batch_verify_faces available staff_encodings uploaded_photo =
      staff_encodings.map (fun p => (p.1, false, 0)) ∧
    (batch_verify_faces available staff_encodings uploaded_photo).map Prod.fst =
      staff_encodings.map Prod.fst ∧
    batch_compare_count available staff_encodings uploaded_photo = 0 := by
  refine ⟨?_, ?_, ?_⟩ <;> simp [batch_verify_faces, batch_compare_count, h, List.map_map]

theorem batch_verify_faces_no_probe_face_witness :
    ((extract_face_encoding true imgNoFace).1 = none) ∧
    (batch_verify_faces true [("a", [(0 : ℝ)]), ("b", [(1 : ℝ)])] imgNoFace =
      [("a", [(0 : ℝ)]), ("b", [(1 : ℝ)])].map (fun p => (p.1, false, 0)) ∧
     (batch_verify_faces true [("a", [(0 : ℝ)]), ("b", [(1 : ℝ)])] imgNoFace).map Prod.fst =
      [("a", [(0 : ℝ)]), ("b", [(1 : ℝ)])].map Prod.fst ∧
     batch_compare_count true [("a", [(0 : ℝ)]), ("b", [(1 : ℝ)])] imgNoFace = 0) :=
  ⟨rfl, batch_verify_faces_no_probe_face true [("a", [(0 : ℝ)]), ("b", [(1 : ℝ)])] imgNoFace rfl⟩

/-- Claim C4: with a located probe face, `batch_verify_faces` produces one
entry per input pair preserving the ids and their order, each entry
depending only on its own pair's comparison, and a comparison failure
(the numpy distance raises, i.e. the dimensions differ and are not
broadcastable) yields `(id, false, 0.0)` for that entry only. -/
theorem batch_verify_faces_order_isolation (available : Bool)
    (staff_encodings : List (String × List ℝ)) (uploaded_photo : Image) (ue : List ℝ)
    (h : (extract_face_encoding available uploaded_photo).1 = some ue) :
    (batch_verify_faces available staff_encodings uploaded_photo).length =
      staff_encodings.length ∧
    (batch_verify_faces available staff_encodings uploaded_photo).map Prod.fst =
      staff_encodings.map Prod.fst ∧
    (∀ i (hi : i < staff_encodings.length),
      (batch_verify_faces available staff_encodings uploaded_photo)[i]? =
        some ((staff_encodings.get ⟨i, hi⟩).1,
          compare_faces (staff_encodings.get ⟨i, hi⟩).2 ue)) ∧
    (∀ i (hi : i < staff_encodings.length),
      face_distance ((staff_encodings.get ⟨i, hi⟩).2) ue = none →
      (batch_verify_faces available staff_encodings uploaded_photo)[i]? =
        some ((staff_encodings.get ⟨i, hi⟩).1, false, 0)) := by
  have hb : batch_verify_faces available staff_encodings uploaded_photo =
      staff_encodings.map (fun p =>
        ((p.1 : String), (compare_faces p.2 ue).1, (compare_faces p.2 ue).2)) := by
    simp [batch_verify_faces, h]
  refine ⟨by simp [hb], by simp [hb, List.map_map, Function.comp], ?_, ?_⟩
  · intro i hi
    simp [hb, List.getElem?_eq_getElem, hi]
  · intro i hi hne
    simp [hb, List.getElem?_eq_getElem, hi]
    exact compare_faces_fault _ _ hne

theorem batch_verify_faces_order_isolation_witness :
    ((extract_face_encoding true imgOneFaceDim2).1 = some [(0 : ℝ), 0]) ∧
    ((batch_verify_faces true [("a", [(0 : ℝ), 0, 0]), ("b", [(0 : ℝ), 0])] imgOneFaceDim2).length =
      ([("a", [(0 : ℝ), 0, 0]), ("b", [(0 : ℝ), 0])] : List (String × List ℝ)).length ∧
     (batch_verify_faces true
        [("a", [(0 : ℝ), 0, 0]), ("b", [(0 : ℝ), 0])] imgOneFaceDim2).map Prod.fst =
      ([("a", [(0 : ℝ), 0, 0]), ("b", [(0 : ℝ), 0])] : List (String × List ℝ)).map Prod.fst ∧
     (∀ i (hi : i <
         ([("a", [(0 : ℝ), 0, 0]), ("b", [(0 : ℝ), 0])] : List (String × List ℝ)).length),
       (batch_verify_faces true [("a", [(0 : ℝ), 0, 0]), ("b", [(0 : ℝ), 0])] imgOneFaceDim2)[i]? =
         some ((([("a", [(0 : ℝ), 0, 0]), ("b", [(0 : ℝ), 0])] :
             List (String × List ℝ)).get ⟨i, hi⟩).1,
           compare_faces
             ((([("a", [(0 : ℝ), 0, 0]), ("b", [(0 : ℝ), 0])] :
                 List (String × List ℝ)).get ⟨i, hi⟩).2)
             [(0 : ℝ), 0])) ∧
     (∀ i (hi : i <
         ([("a", [(0 : ℝ), 0, 0]), ("b", [(0 : ℝ), 0])] : List (String × List ℝ)).length),
       face_distance
         ((([("a", [(0 : ℝ), 0, 0]), ("b", [(0 : ℝ), 0])] :
             List (String × List ℝ)).get ⟨i, hi⟩).2) [(0 : ℝ), 0] = none →
       (batch_verify_faces true [("a", [(0 : ℝ), 0, 0]), ("b", [(0 : ℝ), 0])] imgOneFaceDim2)[i]? =
         some ((([("a", [(0 : ℝ), 0, 0]), ("b", [(0 : ℝ), 0])] :
             List (String × List ℝ)).get ⟨i, hi⟩).1,
           false, 0))) :=
  ⟨rfl, batch_verify_faces_order_isolation true [("a", [(0 : ℝ), 0, 0]), ("b", [(0 : ℝ), 0])]
    imgOneFaceDim2 [(0 : ℝ), 0] rfl⟩

/-- Claim C10: whenever `verify_face` returns a non-empty error message,
the result also reports `is_match = False` and confidence exactly 0.0. -/
theorem verify_face_error_no_match (available : Bool) (staff_photo uploaded_photo : Image)
    (h : (verify_face available staff_photo uploaded_photo).2.2 ≠ "") :
    (verify_face available staff_photo uploaded_photo).1 = false ∧
    (verify_face available staff_photo uploaded_photo).2.1 = 0 := by
  unfold verify_face at h ⊢
  rcases hs : extract_face_encoding available staff_photo with ⟨os, es⟩
  rw [hs] at h
  cases os with
  | none => exact ⟨rfl, rfl⟩
  | some se =>
    rcases hu : extract_face_encoding available uploaded_photo with ⟨ou, eu⟩
    rw [hu] at h
    cases ou with
    | none => exact ⟨rfl, rfl⟩
    | some ue => exact absurd rfl h

theorem verify_face_error_no_match_witness :
    ((verify_face true imgNoFace imgOneFaceZero).2.2 ≠ "") ∧
    ((verify_face true imgNoFace imgOneFaceZero).1 = false ∧
     (verify_face true imgNoFace imgOneFaceZero).2.1 = 0) :=
  ⟨by decide, verify_face_error_no_match true imgNoFace imgOneFaceZero (by decide)⟩

lemma string_append_ne_empty (s t : String) (h : s.length ≠ 0) : s ++ t ≠ "" := by
  intro he
  have hl := congrArg String.length he
  rw [String.length_append] at hl
  simp at hl
  exact h hl.1

lemma face_distance_01 : face_distance [(0 : ℝ)] [(1 : ℝ)] = some 1 := by
  have : face_distance_val [(0 : ℝ)] [(1 : ℝ)] = 1 := by
    unfold face_distance_val
    norm_num [Real.sqrt_one]
  simp [face_distance, this]

lemma compare_faces_01 : compare_faces [(0 : ℝ)] [(1 : ℝ)] = (false, 0) := by
  unfold compare_faces compare_faces_with
  rw [face_distance_01]
  show (decide ((1 : ℝ) ≤ RECOGNITION_THRESHOLD), 1 - 1) = (false, 0)
  simp only [Prod.mk.injEq, decide_eq_false_iff_not, RECOGNITION_THRESHOLD]
  norm_num

lemma compare_faces_self_eval (a : List ℝ) : compare_faces a a = (true, 1) := by
  unfold compare_faces compare_faces_with
  rw [face_distance_self]
  show (decide ((0 : ℝ) ≤ RECOGNITION_THRESHOLD), 1 - 0) = (true, 1)
  simp only [Prod.mk.injEq, decide_eq_true_eq, RECOGNITION_THRESHOLD]
  norm_num

lemma compare_faces_broadcast_00 : compare_faces [(0 : ℝ), 0] [(0 : ℝ)] = (true, 1) := by
  have hd : face_distance [(0 : ℝ), 0] [(0 : ℝ)] =
      some (face_distance_val [(0 : ℝ), 0] [(0 : ℝ), 0]) := rfl
  unfold compare_faces compare_faces_with
  rw [hd, face_distance_val_self]
  show (decide ((0 : ℝ) ≤ RECOGNITION_THRESHOLD), 1 - 0) = (true, 1)
  simp only [Prod.mk.injEq, decide_eq_true_eq, RECOGNITION_THRESHOLD]
  norm_num

/-- Claim C6 counterexample: no `InvalidInputError` is ever signalled for
mismatched dimensionality. When the dimensions are incompatible even for
numpy broadcasting (`[0, 0]` against `[0, 0, 0]`) the raised fault is
swallowed and the plain value `(False, 0.0)` is returned — the very value
a genuine equal-dimension non-match such as `[0]` against `[1]` also
returns; and when a mismatched operand has dimension 1 (`[0, 0]` against
`[0]`) numpy broadcasts and `compare_faces` even returns the match
`(True, 1.0)` without any error. -/
theorem compare_faces_no_invalid_input_error_cex :
    (face_distance [(0 : ℝ), 0] [(0 : ℝ), 0, 0] = none ∧
     compare_faces [(0 : ℝ), 0] [(0 : ℝ), 0, 0] = (false, 0)) ∧
    compare_faces [(0 : ℝ)] [(1 : ℝ)] = (false, 0) ∧
    compare_faces [(0 : ℝ), 0] [(0 : ℝ)] = (true, 1) :=
  ⟨⟨face_distance_none_23, compare_faces_fault _ _ face_distance_none_23⟩,
   compare_faces_01, compare_faces_broadcast_00⟩

/-- Claim C6 (amended): `compare_faces` signals no error at all: for
equal-dimension embeddings it returns the threshold decision and the
confidence; for mismatched dimensions where either embedding has dimension
1 numpy broadcasting still yields a normal distance-based result; and for
incompatible dimensions (different, neither 1) the raised fault is caught
by its handler and the fallback `(False, 0.0)` is returned. -/
theorem compare_faces_total (a b : List ℝ) :
    (a.length = b.length →
      compare_faces a b =
        (decide (face_distance_val a b ≤ RECOGNITION_THRESHOLD), 1 - face_distance_val a b)) ∧
    (a.length ≠ b.length → a.length ≠ 1 → b.length ≠ 1 →
      face_distance a b = none ∧ compare_faces a b = (false, 0)) ∧
    (a.length ≠ b.length → a.length = 1 ∨ b.length = 1 →
      ∃ d, face_distance a b = some d ∧
        compare_faces a b = (decide (d ≤ RECOGNITION_THRESHOLD), 1 - d)) := by
  refine ⟨?_, ?_, ?_⟩
  · intro h
    simp [compare_faces, compare_faces_with, face_distance, h]
  · intro h1 h2 h3
    have hd : face_distance a b = none := by simp [face_distance, h1, h2, h3]
    exact ⟨hd, compare_faces_fault a b hd⟩
  · intro h1 h2
    cases h2 with
    | inl ha =>
      have hb1 : ¬(1 = b.length) := fun h => h1 (ha.trans h)
      have hd : face_distance a b =
          some (face_distance_val (List.replicate b.length a.headI) b) := by
        simp [face_distance, h1, ha, hb1]
      exact ⟨_, hd, by simp [compare_faces, compare_faces_with, hd]⟩
    | inr hb =>
      have ha : a.length ≠ 1 := fun h => h1 (h.trans hb.symm)
      have hd : face_distance a b =
          some (face_distance_val a (List.replicate a.length b.headI)) := by
        simp [face_distance, h1, ha, hb]
      exact ⟨_, hd, by simp [compare_faces, compare_faces_with, hd]⟩

theorem compare_faces_total_witness :
    (([(0 : ℝ)].length = [(1 : ℝ)].length) ∧
      compare_faces [(0 : ℝ)] [(1 : ℝ)] =
        (decide (face_distance_val [(0 : ℝ)] [(1 : ℝ)] ≤ RECOGNITION_THRESHOLD),
         1 - face_distance_val [(0 : ℝ)] [(1 : ℝ)])) ∧
    (([(0 : ℝ), 0].length ≠ [(0 : ℝ), 0, 0].length) ∧
      ([(0 : ℝ), 0].length ≠ 1) ∧ ([(0 : ℝ), 0, 0].length ≠ 1) ∧
      (face_distance [(0 : ℝ), 0] [(0 : ℝ), 0, 0] = none ∧
       compare_faces [(0 : ℝ), 0] [(0 : ℝ), 0, 0] = (false, 0))) ∧
    (([(0 : ℝ)].length ≠ [(0 : ℝ), 0].length) ∧
      ([(0 : ℝ)].length = 1 ∨ [(0 : ℝ), 0].length = 1) ∧
      (∃ d, face_distance [(0 : ℝ)] [(0 : ℝ), 0] = some d ∧
        compare_faces [(0 : ℝ)] [(0 : ℝ), 0] = (decide (d ≤ RECOGNITION_THRESHOLD), 1 - d))) :=
  ⟨⟨rfl, (compare_faces_total [(0 : ℝ)] [(1 : ℝ)]).1 rfl⟩,
   ⟨by decide, by decide, by decide,
    (compare_faces_total [(0 : ℝ), 0] [(0 : ℝ), 0, 0]).2.1 (by decide) (by decide) (by decide)⟩,
   ⟨by decide, Or.inl rfl,
    (compare_faces_total [(0 : ℝ)] [(0 : ℝ), 0]).2.2 (by decide) (Or.inl rfl)⟩⟩

/-- Claim C5 counterexample: a fault raised while comparing the two
embeddings (dimensions 2 against 3, incompatible even for numpy
broadcasting, so the distance computation raises) does not terminate
`verify_face` with a processing-error outcome: the call returns
`(False, 0.0, "")` with an empty diagnostic, indistinguishable from a
plain non-match. -/
theorem verify_face_compare_fault_cex :
    face_distance [(0 : ℝ), 0] [(0 : ℝ), 0, 0] = none ∧
    verify_face true imgOneFaceDim2 imgOneFaceDim3 = (false, 0, "") := by
  constructor
  · exact face_distance_none_23
  · rfl

/-- Claim C5 (amended): a processing fault during reference or probe
extraction terminates `verify_face` with `(False, 0.0)` and a non-empty
diagnostic naming the failing side and the fault, but a fault raised while
comparing the two embeddings (which occurs only when their dimensions are
incompatible for numpy broadcasting) is caught inside `compare_faces` and
the call returns `(False, 0.0, "")` with an empty diagnostic. -/
theorem verify_face_fault_diagnostics :
    (∀ (staff_photo uploaded_photo : Image) (e : String),
      staff_photo.locate = Except.error e →
      verify_face true staff_photo uploaded_photo =
        (false, 0, "Staff photo error: " ++ ("Error processing image: " ++ e)) ∧
      "Staff photo error: " ++ ("Error processing image: " ++ e) ≠ "") ∧
    (∀ (staff_photo uploaded_photo : Image) (se : List ℝ) (e : String),
      (extract_face_encoding true staff_photo).1 = some se →
      uploaded_photo.locate = Except.error e →
      verify_face true staff_photo uploaded_photo =
        (false, 0, "Uploaded photo error: " ++ ("Error processing image: " ++ e)) ∧
      "Uploaded photo error: " ++ ("Error processing image: " ++ e) ≠ "") ∧
    (∀ (staff_photo uploaded_photo : Image) (se ue : List ℝ),
      (extract_face_encoding true staff_photo).1 = some se →
      (extract_face_encoding true uploaded_photo).1 = some ue →
      face_distance se ue = none →
      verify_face true staff_photo uploaded_photo = (false, 0, "")) := by
  refine ⟨?_, ?_, ?_⟩
  · intro staff_photo uploaded_photo e hse
    have hex : extract_face_encoding true staff_photo =
        (none, "Error processing image: " ++ e) := by
      simp [extract_face_encoding, hse]
    constructor
    · unfold verify_face
      rw [hex]
    · exact string_append_ne_empty _ _ (by decide)
  · intro staff_photo uploaded_photo se e hst hup
    have hexu : extract_face_encoding true uploaded_photo =
        (none, "Error processing image: " ++ e) := by
      simp [extract_face_encoding, hup]
    rcases hs : extract_face_encoding true staff_photo with ⟨os, es⟩
    rw [hs] at hst
    cases os with
    | none => simp at hst
    | some se0 =>
      constructor
      · unfold verify_face
        rw [hs, hexu]
      · exact string_append_ne_empty _ _ (by decide)
  · intro staff_photo uploaded_photo se ue hst hup hne
    rcases hs : extract_face_encoding true staff_photo with ⟨os, es⟩
    rcases hu : extract_face_encoding true uploaded_photo with ⟨ou, eu⟩
    rw [hs] at hst
    rw [hu] at hup
    cases os with
    | none => simp at hst
    | some se0 =>
      cases ou with
      | none => simp at hup
      | some ue0 =>
        simp only [Option.some.injEq] at hst hup
        subst hst hup
        unfold verify_face
        rw [hs, hu]
        simp [compare_faces_fault _ _ hne]

theorem verify_face_fault_diagnostics_witness :
    ((imgLoadFault.locate = Except.error "boom") ∧
      (verify_face true imgLoadFault imgOneFaceZero =
        (false, 0, "Staff photo error: " ++ ("Error processing image: " ++ "boom")) ∧
       "Staff photo error: " ++ ("Error processing image: " ++ "boom") ≠ "")) ∧
    (((extract_face_encoding true imgOneFaceZero).1 = some [(0 : ℝ)]) ∧
      (imgLoadFault.locate = Except.error "boom") ∧
      (verify_face true imgOneFaceZero imgLoadFault =
        (false, 0, "Uploaded photo error: " ++ ("Error processing image: " ++ "boom")) ∧
       "Uploaded photo error: " ++ ("Error processing image: " ++ "boom") ≠ "")) ∧
    (((extract_face_encoding true imgOneFaceDim2).1 = some [(0 : ℝ), 0]) ∧
      ((extract_face_encoding true imgOneFaceDim3).1 = some [(0 : ℝ), 0, 0]) ∧
      (face_distance [(0 : ℝ), 0] [(0 : ℝ), 0, 0] = none) ∧
      verify_face true imgOneFaceDim2 imgOneFaceDim3 = (false, 0, "")) :=
  ⟨⟨rfl, verify_face_fault_diagnostics.1 imgLoadFault imgOneFaceZero "boom" rfl⟩,
   ⟨rfl, rfl,
    verify_face_fault_diagnostics.2.1 imgOneFaceZero imgLoadFault [(0 : ℝ)] "boom" rfl rfl⟩,
   ⟨rfl, rfl, face_distance_none_23,
    verify_face_fault_diagnostics.2.2 imgOneFaceDim2 imgOneFaceDim3 [(0 : ℝ), 0] [(0 : ℝ), 0, 0]
      rfl rfl face_distance_none_23⟩⟩

/-- Claim C9 counterexample: on an image with two located faces the
pipeline selects the first face and succeeds, but the returned diagnostic
text is empty — the ambiguity is not recorded in the outcome's diagnostic
text (it only goes to the logger). -/
theorem multiple_faces_diagnostic_cex :
    extract_face_encoding true imgTwoFaces = (some [(0 : ℝ)], "") ∧
    verify_face true imgTwoFaces imgTwoFaces = (true, 1, "") := by
  constructor
  · rfl
  · unfold verify_face
    rw [show extract_face_encoding true imgTwoFaces = (some [(0 : ℝ)], "") from rfl]
    simp [compare_faces_self_eval]

/-- Claim C9 (amended): when the locator reports more than one face, the
pipeline selects the first reported face's encoding and continues without
failing (empty error message), and the ambiguity is recorded in the
service's log warning, not in the outcome's diagnostic text. -/
theorem multiple_faces_first_logged (img : Image) (locs : List FaceLocation)
    (e0 : List ℝ) (rest : List (List ℝ))
    (hl : img.locate = Except.ok locs) (hm : 1 < locs.length)
    (he : img.encode = Except.ok (e0 :: rest)) :
    extract_face_encoding true img = (some e0, "") ∧
    ("Multiple faces detected (" ++ toString locs.length ++ "), using the first one") ∈
      extract_face_encoding_log true img := by
  have hne : locs.isEmpty = false := by
    cases locs with
    | nil => simp at hm
    | cons a t => rfl
  constructor
  · simp [extract_face_encoding, hl, hne, he]
  · simp [extract_face_encoding_log, hl, hne, he, hm]

theorem multiple_faces_first_logged_witness :
    (imgTwoFaces.locate =
      Except.ok [((0, 0, 0, 0) : FaceLocation), ((1, 1, 1, 1) : FaceLocation)]) ∧
    (1 < ([((0, 0, 0, 0) : FaceLocation), ((1, 1, 1, 1) : FaceLocation)]).length) ∧
    (imgTwoFaces.encode = Except.ok ([(0 : ℝ)] :: [[(1 : ℝ)]])) ∧
    (extract_face_encoding true imgTwoFaces = (some [(0 : ℝ)], "") ∧
     ("Multiple faces detected (" ++
        toString ([((0, 0, 0, 0) : FaceLocation), ((1, 1, 1, 1) : FaceLocation)]).length ++
        "), using the first one") ∈ extract_face_encoding_log true imgTwoFaces) :=
  ⟨rfl, by decide, rfl,
   multiple_faces_first_logged imgTwoFaces
     [((0, 0, 0, 0) : FaceLocation), ((1, 1, 1, 1) : FaceLocation)]
     [(0 : ℝ)] [[(1 : ℝ)]] rfl (by decide) rfl⟩

end FaceRec
